import Mathlib

/-
Verification of mexgdal.c (a MATLAB MEX gateway to the GDAL raster library).

Shallow embedding notes:
  * mxArray numeric fields are modelled by `MxField` (row count, column count,
    double-class flag, and the data already cast to machine integers, since the
    C code reads every value through the cast `(int) pr[0]`).
  * `mexErrMsgTxt` aborts the whole call: modelled by `Except.error`.
    `mexWarnMsgTxt` and `mexPrintf` emit text and continue: modelled by
    accumulated string lists.
  * The GDAL library is an external collaborator.  Its behaviour is modelled
    by oracles carried in `BandCore` (windowed reads), `GeoOracle` (the four
    georeferencing strategies of `record_geotransform`) and `MexEnv`
    (dataset open results, driver registry, GDAL version number).
  * C `int` is modelled by `Int`; loop bounds `for (i = 0; i < yout; ++i)`
    use `Int.toNat` so that a negative bound runs zero iterations, as in C.
  * `mxCalloc` zero-initialises: decode buffers are read through
    `List.getD _ _ 0`, which returns 0 beyond the oracle-provided data,
    matching the calloc-cleared memory the C code would read.
-/

namespace Mexgdal

/-- GDALDataType code for 8-bit unsigned integers (gdal.h). -/
def GDT_Byte : Nat := 1

/-- GDALDataType code for 16-bit unsigned integers. -/
def GDT_UInt16 : Nat := 2

/-- GDALDataType code for 16-bit signed integers. -/
def GDT_Int16 : Nat := 3

/-- GDALDataType code for 32-bit unsigned integers. -/
def GDT_UInt32 : Nat := 4

/-- GDALDataType code for 32-bit signed integers. -/
def GDT_Int32 : Nat := 5

/-- GDALDataType code for 32-bit floats. -/
def GDT_Float32 : Nat := 6

/-- GDALDataType code for 64-bit floats. -/
def GDT_Float64 : Nat := 7

/-- Collaborator boundary: GDALGetDataTypeName. -/
def gdalDataTypeName (t : Nat) : String :=
  if t = GDT_Byte then "Byte"
  else if t = GDT_UInt16 then "UInt16"
  else if t = GDT_Int16 then "Int16"
  else if t = GDT_UInt32 then "UInt32"
  else if t = GDT_Int32 then "Int32"
  else if t = GDT_Float32 then "Float32"
  else if t = GDT_Float64 then "Float64"
  else "Unknown"

/-- Model of an mxArray numeric field handed to the unpack_* routines:
`m`/`n` are the mxGetM/mxGetN shape, `isDouble` the mxIsDouble check, and
`data` the values as the C code consumes them (always via `(int) pr[0]`). -/
structure MxField where
  m : Nat
  n : Nat
  isDouble : Bool
  data : List Int
deriving DecidableEq

/-- The ten option variables of mexFunction that unpack_input_options fills
through out-parameters (mexgdal.c lines 80-115, 159-217). -/
structure OptState where
  requested_band : Int
  requested_overview : Int
  gdal_dump : Int
  verbose : Int
  xorigin : Int
  yorigin : Int
  xextend : Int
  yextend : Int
  xout : Int
  yout : Int
deriving DecidableEq

/-- Defaults set at the top of mexFunction (lines 80-115 and 213-217):
band 1, no overview (-1), no dump, verbose on, origins 0, and the
impossible sentinel -1 for the extent and output sizes. -/
def defaultOptState : OptState :=
  ⟨1, -1, 0, 1, 0, 0, -1, -1, -1, -1⟩

/-- unpack_band (mexgdal.c 550-566): warns (non-fatally) when the field is
not 1x1, then returns the first element regardless. -/
def unpack_band (field : MxField) : List String × Int :=
  ((if field.m ≠ 1 ∨ field.n ≠ 1 then
      ["unpack_band:  band field must be 1x1 rather than " ++
        toString field.m ++ "x" ++ toString field.n ++ ".\n"]
    else []),
   field.data.headD 0)

/-- unpack_overview (mexgdal.c 655-671): warns only when the row count is
not 1, then returns the first element. -/
def unpack_overview (field : MxField) : List String × Int :=
  ((if field.m ≠ 1 then
      ["unpack_overview:  overview field must be 1x1 rather than " ++
        toString field.m ++ "x" ++ toString field.n ++ ".\n"]
    else []),
   field.data.headD 0)

/-- unpack_gdal_dump (mexgdal.c 525-545): warns when the field is not of
double class, warns when the row count is not 1, returns the first element. -/
def unpack_gdal_dump (field : MxField) : List String × Int :=
  ((if ¬ field.isDouble then
      ["unpack_gdal_dump:  gdal_dump field must be a double.\n"]
    else []) ++
   (if field.m ≠ 1 then
      ["unpack_gdal_dump:  gdal_dump field must be mx1 rather than " ++
        toString field.m ++ "x" ++ toString field.n ++ ".\n"]
    else []),
   field.data.headD 0)

/-- unpack_verbose (mexgdal.c 685-701): warns only when the row count is
not 1, then returns the first element. -/
def unpack_verbose (field : MxField) : List String × Int :=
  ((if field.m ≠ 1 then
      ["unpack_verbose:  overview field must be 1x1 rather than " ++
        toString field.m ++ "x" ++ toString field.n ++ ".\n"]
    else []),
   field.data.headD 0)

/-- unpack_xextend (mexgdal.c 571-587): fatal (mexErrMsgTxt) when the field
is not exactly 1x1, otherwise returns the first element. -/
def unpack_xextend (field : MxField) : Except String Int :=
  if field.m ≠ 1 ∨ field.n ≠ 1 then
    .error ("unpack_xExtend:  xExtend field must be 1x1 rather than " ++
      toString field.m ++ "x" ++ toString field.n ++ ".\n")
  else .ok (field.data.headD 0)

/-- unpack_yextend (mexgdal.c 592-608): fatal when not exactly 1x1. -/
def unpack_yextend (field : MxField) : Except String Int :=
  if field.m ≠ 1 ∨ field.n ≠ 1 then
    .error ("unpack_yExtend:  yExtend field must be 1x1 rather than " ++
      toString field.m ++ "x" ++ toString field.n ++ ".\n")
  else .ok (field.data.headD 0)

/-- unpack_xout (mexgdal.c 613-629): fatal when not exactly 1x1. -/
def unpack_xout (field : MxField) : Except String Int :=
  if field.m ≠ 1 ∨ field.n ≠ 1 then
    .error ("unpack_xout:  xout field must be 1x1 rather than " ++
      toString field.m ++ "x" ++ toString field.n ++ ".\n")
  else .ok (field.data.headD 0)

/-- unpack_yout (mexgdal.c 634-650): fatal when not exactly 1x1. -/
def unpack_yout (field : MxField) : Except String Int :=
  if field.m ≠ 1 ∨ field.n ≠ 1 then
    .error ("unpack_yout:  yout field must be 1x1 rather than " ++
      toString field.m ++ "x" ++ toString field.n ++ ".\n")
  else .ok (field.data.headD 0)

/-- One iteration of the field loop in unpack_input_options
(mexgdal.c 1139-1191).  The C body is a sequence of strcmp guards; since a
field name matches at most one of the ten strings, the nested if-chain is
equivalent.  Note that the C code routes `xorigin` and `yorigin` through
unpack_band, which is reproduced here.  An unrecognized name falls through
with no effect. -/
def unpack_field (name : String) (field : MxField) (st : OptState) :
    Except String (List String × OptState) :=
  if name = "band" then
    let r := unpack_band field
    .ok (r.1, { st with requested_band := r.2 })
  else if name = "overview" then
    let r := unpack_overview field
    .ok (r.1, { st with requested_overview := r.2 })
  else if name = "gdal_dump" then
    let r := unpack_gdal_dump field
    .ok (r.1, { st with gdal_dump := r.2 })
  else if name = "verbose" then
    let r := unpack_verbose field
    .ok (r.1, { st with verbose := r.2 })
  else if name = "xorigin" then
    let r := unpack_band field
    .ok (r.1, { st with xorigin := r.2 })
  else if name = "yorigin" then
    let r := unpack_band field
    .ok (r.1, { st with yorigin := r.2 })
  else if name = "xextend" then
    match unpack_xextend field with
    | .error e => .error e
    | .ok v => .ok ([], { st with xextend := v })
  else if name = "yextend" then
    match unpack_yextend field with
    | .error e => .error e
    | .ok v => .ok ([], { st with yextend := v })
  else if name = "xout" then
    match unpack_xout field with
    | .error e => .error e
    | .ok v => .ok ([], { st with xout := v })
  else if name = "yout" then
    match unpack_yout field with
    | .error e => .error e
    | .ok v => .ok ([], { st with yout := v })
  else .ok ([], st)

/-- unpack_input_options (mexgdal.c 1099-1193): walk the option structure's
fields in order, updating the out-parameters; a fatal unpack aborts the
whole call. -/
def unpack_input_options :
    List (String × MxField) → OptState → Except String (List String × OptState)
  | [], st => .ok ([], st)
  | (name, f) :: rest, st =>
    match unpack_field name f st with
    | .error e => .error e
    | .ok (w, st') =>
      match unpack_input_options rest st' with
      | .error e => .error e
      | .ok (w2, st'') => .ok (w ++ w2, st'')

/-- The resolved read window: origin, extent and output (resampled) size. -/
structure Window where
  xorigin : Int
  yorigin : Int
  xextend : Int
  yextend : Int
  xout : Int
  yout : Int
deriving DecidableEq

/-- Window resolution logic of mexFunction (mexgdal.c 318-337): the -1
sentinels for the extents are replaced by the raster (band or overview)
size, then the -1 sentinels for the output sizes are replaced by
extent minus origin. -/
def window_plan (xorigin yorigin xextend0 yextend0 xout0 yout0
    RasterXSize RasterYSize : Int) : Window :=
  let xextend := if xextend0 = -1 then RasterXSize else xextend0
  let yextend := if yextend0 = -1 then RasterYSize else yextend0
  let xout := if xout0 = -1 then xextend - xorigin else xout0
  let yout := if yout0 = -1 then yextend - yorigin else yout0
  ⟨xorigin, yorigin, xextend, yextend, xout, yout⟩

/-- The transpose double loop of mexFunction (mexgdal.c 400-406 and
431-437): for i in [0,yout), j in [0,xout), write
`transpose_buffer[j * yout + i] := void_buffer[i * xout + j]` into a
calloc-cleared buffer of `xout * yout` elements. -/
def transpose_pass (xout yout : Nat) (src : List Int) : List Int :=
  (List.range yout).foldl
    (fun tb i =>
      (List.range xout).foldl
        (fun tb2 j => tb2.set (j * yout + i) (src.getD (i * xout + j) 0))
        tb)
    (List.replicate (xout * yout) 0)

/-- Element class of the array handed back to MATLAB:
mxUINT8_CLASS or mxDOUBLE_CLASS. -/
inductive ElemKind where
  | uint8
  | float64
deriving DecidableEq

/-- Observable collaborator calls that the claims quantify over:
a GDALRasterIO windowed read, or a metadata dump. -/
inductive Event where
  | rasterRead
  | metadataDump
deriving DecidableEq

/-- Collaborator boundary for one raster band (or overview): its reported
size and native data type, its no-data value (the value GDALGetRasterNoDataValue
returns; the C code ignores the success flag), and the windowed-read oracle
`readWindow reqType xorigin yorigin xextend yextend xout yout`, giving the
row-major decode buffer GDALRasterIO would fill for that request. -/
structure BandCore where
  xsize : Int
  ysize : Int
  dtype : Nat
  nodata : Int
  readWindow : Nat → Int → Int → Int → Int → Int → Int → List Int

/-- The row-major decode buffer the fetch step reads for a given window:
the byte branch requests GDT_Byte samples, every other branch requests
GDT_Float64 samples (mexgdal.c 391-395 and 424-426). -/
def fetchDecoded (band : BandCore) (xo yo xe ye xout yout : Int) : List Int :=
  band.readWindow (if band.dtype = GDT_Byte then GDT_Byte else GDT_Float64)
    xo yo xe ye xout yout

/-- The raster array built by mexFunction: its element class, the
(yout, xout) dimensions given to mxCreateNumericArray, and the transposed
sample data copied into it. -/
structure FetchOut where
  kind : ElemKind
  dims : Int × Int
  data : List Int
deriving DecidableEq

/-- The switch on the native GDAL data type (mexgdal.c 385-448):
GDT_Byte keeps 8-bit samples; the six other supported types are read as
(widened to) 64-bit floats; anything else is a fatal error naming the
offending type code.  Both supported branches transpose the decode buffer
and report dimensions (yout, xout). -/
def fetch (band : BandCore) (xo yo xe ye xout yout : Int) :
    Except String (List Event × FetchOut) :=
  if band.dtype = GDT_Byte then
    let buf := band.readWindow GDT_Byte xo yo xe ye xout yout
    let tbuf := transpose_pass xout.toNat yout.toNat buf
    .ok ([Event.rasterRead], ⟨ElemKind.uint8, (yout, xout), tbuf⟩)
  else if band.dtype = GDT_UInt16 ∨ band.dtype = GDT_Int16 ∨
      band.dtype = GDT_UInt32 ∨ band.dtype = GDT_Int32 ∨
      band.dtype = GDT_Float32 ∨ band.dtype = GDT_Float64 then
    let buf := band.readWindow GDT_Float64 xo yo xe ye xout yout
    let tbuf := transpose_pass xout.toNat yout.toNat buf
    .ok ([Event.rasterRead], ⟨ElemKind.float64, (yout, xout), tbuf⟩)
  else
    .error ("Unhandled GDALDataType " ++ toString band.dtype ++ ".\n")

/-- Collaborator boundary for the four georeferencing strategies tried by
record_geotransform, in source order: the internally stored transform
(GDALGetGeoTransform), the generic world file (GDALReadWorldFile with
extension "wld" on the filename), the appended-extension world file
(GDALReadWorldFile with "wld" on filename ++ ".xxx", which targets
"name.tif.wld"), and the extension-guessing call (GDALReadWorldFile with a
NULL extension, available only on library versions >= 1210).  Each entry is
the 6-parameter transform that strategy would yield, or none. -/
structure GeoOracle where
  internal : Option (List Int)
  wldGeneric : Option (List Int)
  wldAppended : Option (List Int)
  wldGuess : Option (List Int)

/-- Names of the four strategies in the order record_geotransform tries
them; used to trace which collaborator calls were made. -/
def geoStrategyNames : List String :=
  ["GDALGetGeoTransform", "GDALReadWorldFile wld",
   "GDALReadWorldFile appended wld", "GDALReadWorldFile guess"]

/-- record_geotransform (mexgdal.c 476-519): try the four strategies in
order, return status 0 and the transform of the first success; if all fail
(the guess strategy being attempted only when GDAL_VERSION_NUM >= 1210),
return status -1 with no transform.  The third component records which
strategies were consulted, in order. -/
def record_geotransform (version : Nat) (o : GeoOracle) :
    Int × Option (List Int) × List String :=
  match o.internal with
  | some g => (0, some g, geoStrategyNames.take 1)
  | none =>
    match o.wldGeneric with
    | some g => (0, some g, geoStrategyNames.take 2)
    | none =>
      match o.wldAppended with
      | some g => (0, some g, geoStrategyNames.take 3)
      | none =>
        if version ≥ 1210 then
          match o.wldGuess with
          | some g => (0, some g, geoStrategyNames.take 4)
          | none => (-1, none, geoStrategyNames.take 4)
        else (-1, none, geoStrategyNames.take 3)

/-- One element of the Overview struct array: the overview's dimensions
(populate via handle_overviews, mexgdal.c 1050-1060). -/
structure OverviewEntry where
  xSize : Int
  ySize : Int
deriving DecidableEq

/-- One element of the Band struct array (fields created at mexgdal.c
950-956).  mxCreateStructMatrix initialises every field to NULL; a field
never written stays `none`. -/
structure BandEntry where
  xSize : Option Int
  ySize : Option Int
  dataTypeName : Option String
  noDataValue : Option Int
  overview : Option (List OverviewEntry)
deriving DecidableEq

/-- A freshly created Band struct element: all fields NULL. -/
def blankBandEntry : BandEntry := ⟨none, none, none, none, none⟩

/-- Host-environment boundary: MATLAB presents a NULL struct field as the
empty array, so a Band element's Overview field serializes as the empty
sequence when it was never set. -/
def overviewField (e : BandEntry) : List OverviewEntry :=
  e.overview.getD []

/-- One band of an open dataset, together with its overview chain. -/
structure GDALBand where
  core : BandCore
  overviews : List BandCore

/-- mxSetField(band_struct, 0, ...): every write in the band loop and in
handle_overviews targets struct element 0. -/
def setElem0 (bs : List BandEntry) (f : BandEntry → BandEntry) :
    List BandEntry :=
  match bs with
  | [] => []
  | e :: rest => f e :: rest

/-- handle_overviews (mexgdal.c 996-1063): when the band has at least one
overview, build the Overview struct array and store it — at element 0 of
the band struct array, as the C code does; with zero overviews nothing is
written and the function returns normally. -/
def handle_overviews (b : GDALBand) (bs : List BandEntry) : List BandEntry :=
  if b.overviews.length > 0 then
    let ovs := b.overviews.map (fun c => OverviewEntry.mk c.xsize c.ysize)
    setElem0 bs (fun e => { e with overview := some ovs })
  else bs

/-- The per-band field writes of the populate_metadata_struct band loop
(mexgdal.c 958-975): XSize, YSize, DataType and NoDataValue of the current
band, all stored at struct element 0 as in the C code. -/
def band_fields (b : GDALBand) (bs : List BandEntry) : List BandEntry :=
  setElem0 bs (fun e =>
    { e with
      xSize := some b.core.xsize,
      ySize := some b.core.ysize,
      dataTypeName := some (gdalDataTypeName b.core.dtype),
      noDataValue := some b.core.nodata })

/-- The band loop of populate_metadata_struct (mexgdal.c 958-981):
iterate over bands 1..RasterCount in order, writing each band's fields and
overviews into the band struct array. -/
def band_loop : List GDALBand → List BandEntry → List BandEntry
  | [], bs => bs
  | b :: rest, bs => band_loop rest (handle_overviews b (band_fields b bs))

/-- Collaborator boundary for an opened dataset: dataset-level dimensions,
projection text, driver identity, and the band list. -/
structure GDALDataset where
  xsize : Int
  ysize : Int
  projectionRef : String
  driverShortName : String
  driverLongName : String
  bands : List GDALBand

/-- The metadata structure assembled by populate_metadata_struct
(fields created at mexgdal.c 863-873). -/
structure MetadataStruct where
  projectionRef : String
  geoTransform : Option (List Int)
  driverShortName : String
  driverLongName : String
  rasterXSize : Int
  rasterYSize : Int
  rasterCount : Int
  drivers : List (String × String)
  band : List BandEntry
deriving DecidableEq

/-- populate_metadata_struct (mexgdal.c 755-988): fail fatally when the
source cannot be opened; otherwise record drivers, projection,
georeference (warning non-fatally and leaving the field NULL when
record_geotransform reports -1), driver identity, dataset dimensions and
band count, then run the band loop over a struct array of RasterCount
blank elements.  `drivers` is the registry as (LongName, ShortName) pairs
in registration order. -/
def populate_metadata_struct (filename : String)
    (drivers : List (String × String)) (version : Nat) (geo : GeoOracle)
    (openResult : Option GDALDataset) :
    Except String (List String × MetadataStruct) :=
  match openResult with
  | none => .error ("Unable to open " ++ filename ++ ".\n")
  | some ds =>
    let r := record_geotransform version geo
    let geoField : Option (List Int) := if r.1 = 0 then r.2.1 else none
    let warns : List String :=
      if r.1 = 0 then []
      else ["No internal georeferencing exists for " ++ filename ++
            ", and could not find a suitable world file either.\n"]
    let bandEntries :=
      band_loop ds.bands (List.replicate ds.bands.length blankBandEntry)
    .ok (warns,
      ⟨ds.projectionRef, geoField, ds.driverShortName, ds.driverLongName,
       ds.xsize, ds.ysize, (ds.bands.length : Int), drivers, bandEntries⟩)

/-- External world of one mexgdal call: the input filename, the driver
registry, the GDAL library version, the four georeferencing strategy
results, and the result of GDALOpen on the filename (none = open fails). -/
structure MexEnv where
  filename : String
  drivers : List (String × String)
  version : Nat
  geo : GeoOracle
  openResult : Option GDALDataset

/-- The single output argument of mexFunction: a raster array in
pixel-fetch mode, or the metadata structure in dump mode. -/
inductive MexOut where
  | raster (out : FetchOut)
  | meta (m : MetadataStruct)

/-- Observable behaviour of one call: the diagnostic text emitted through
mexWarnMsgTxt/mexPrintf, the collaborator events, and the outcome
(mexErrMsgTxt abort, or the returned array). -/
structure MexRun where
  prints : List String
  events : List Event
  outcome : Except String MexOut

/-- Fallback band used to model NULL-handle dereference: requesting a band
or overview index out of range makes the C code pass a NULL handle into
GDAL, which is undefined behaviour; the model totalises it with an inert
band. -/
def defaultBandCore : BandCore := ⟨0, 0, 0, 0, fun _ _ _ _ _ _ _ => []⟩

/-- Band/overview selection of mexFunction (mexgdal.c 300-303):
GDALGetRasterBand with the 1-based requested band, then GDALGetOverview
when an overview index >= 0 was requested. -/
def selectBand (ds : GDALDataset) (requested_band requested_overview : Int) :
    BandCore :=
  let b := ds.bands.getD (requested_band - 1).toNat ⟨defaultBandCore, []⟩
  if requested_overview ≥ 0 then
    b.overviews.getD requested_overview.toNat defaultBandCore
  else b.core

/-- The verbose diagnostic block of mexFunction (mexgdal.c 349-384),
emitted only when the verbose flag is set.  The min/max line summarises
the GDALGetRasterMinimum/Maximum/ComputeRasterMinMax calls, which only
feed this printout. -/
def verbosePrints (st : OptState) (band : BandCore) (w : Window) :
    List String :=
  if st.verbose ≠ 0 then
    ["data type is " ++ toString band.dtype ++ "\n",
     "Block=" ++ toString w.xextend ++ "x" ++ toString w.yextend ++
       " Type=" ++ gdalDataTypeName band.dtype ++ "\n",
     "min max diagnostics\n",
     "xOrigin = " ++ toString w.xorigin ++ "\n",
     "yOrigin = " ++ toString w.yorigin ++ "\n",
     "RasterXSize = " ++ toString band.xsize ++ "\n",
     "RasterYSize = " ++ toString band.ysize ++ "\n",
     "xExtend = " ++ toString w.xextend ++ "\n",
     "yExtend = " ++ toString w.yextend ++ "\n",
     "xOut = " ++ toString w.xout ++ "\n",
     "yOut = " ++ toString w.yout ++ "\n",
     "Now reading into buffer...\n"]
  else []

/-- mexFunction after option unpacking (mexgdal.c 277-467): dump mode
returns only the metadata structure; otherwise open the dataset, select
the band or overview, resolve the window against the raster size reported
for that handle, print the verbose diagnostics, and run the fetch switch.
The copy into the MATLAB array (memcpy at line 458) is the identity on the
transposed data. -/
def run_with_options (env : MexEnv) (warns : List String) (st : OptState) :
    MexRun :=
  if st.gdal_dump ≠ 0 then
    match populate_metadata_struct env.filename env.drivers env.version
        env.geo env.openResult with
    | .error e => ⟨warns, [], .error e⟩
    | .ok (w2, m) => ⟨warns ++ w2, [Event.metadataDump], .ok (MexOut.meta m)⟩
  else
    match env.openResult with
    | none => ⟨warns, [], .error ("Unable to open " ++ env.filename ++ ".\n")⟩
    | some ds =>
      let hBand := selectBand ds st.requested_band st.requested_overview
      let w := window_plan st.xorigin st.yorigin st.xextend st.yextend
        st.xout st.yout hBand.xsize hBand.ysize
      let pr := verbosePrints st hBand w
      match fetch hBand w.xorigin w.yorigin w.xextend w.yextend w.xout w.yout with
      | .error e => ⟨warns ++ pr, [], .error e⟩
      | .ok (ev, out) =>
        let pr2 :=
          if st.verbose ≠ 0 then
            ["Now copying into matlab array...\n",
             "Finished copying into matlab array...\n"]
          else []
        ⟨warns ++ pr ++ pr2, ev, .ok (MexOut.raster out)⟩

/-- mexFunction (mexgdal.c 61-468) for a well-formed filename argument:
with no second argument the defaults stand; with an option structure,
unpack it (possibly aborting), then dispatch. -/
def mexgdal_run (env : MexEnv) (opts : Option (List (String × MxField))) :
    MexRun :=
  match (match opts with
         | none => Except.ok ([], defaultOptState)
         | some s => unpack_input_options s defaultOptState) with
  | .error e => ⟨[], [], .error e⟩
  | .ok (warns, st) => run_with_options env warns st

/-- A well-shaped 1x1 double scalar option field holding `v`. -/
def scalarField (v : Int) : MxField := ⟨1, 1, true, [v]⟩

/-- Zero or one option entries: a present option becomes a 1x1 scalar
field of the given name; an absent option contributes nothing. -/
def optEntry (name : String) (v : Option Int) : List (String × MxField) :=
  match v with
  | none => []
  | some x => [(name, scalarField x)]

/-- An option structure built from optional scalar values for the ten
recognized field names (in one fixed order; unpack_input_options is
insensitive to field order). -/
def mkOpts (b o d v xo yo xe ye xu yu : Option Int) :
    List (String × MxField) :=
  optEntry "band" b ++ optEntry "overview" o ++ optEntry "gdal_dump" d ++
  optEntry "verbose" v ++ optEntry "xorigin" xo ++ optEntry "yorigin" yo ++
  optEntry "xextend" xe ++ optEntry "yextend" ye ++ optEntry "xout" xu ++
  optEntry "yout" yu

/-- Read oracle of a small synthetic band: a 3x2 window decodes to the
row-major buffer [10, 20, 30, 40, 50, 60] whatever the request. -/
def sampleRead : Nat → Int → Int → Int → Int → Int → Int → List Int :=
  fun _ _ _ _ _ _ _ => [10, 20, 30, 40, 50, 60]

/-- Read oracle of an inert band (no samples). -/
def inertRead : Nat → Int → Int → Int → Int → Int → Int → List Int :=
  fun _ _ _ _ _ _ _ => []

/-- A 3x2 byte-typed band. -/
def byteBand : BandCore := ⟨3, 2, GDT_Byte, 0, sampleRead⟩

/-- A 3x2 band with native type Int16. -/
def wideBand : BandCore := ⟨3, 2, GDT_Int16, 0, sampleRead⟩

/-- A 3x2 band with the unsupported native type code 42. -/
def badBand : BandCore := ⟨3, 2, 42, 0, sampleRead⟩

/-- First band of the two-band metadata samples: 10x20, Byte, no-data 7. -/
def sampleCoreA : BandCore := ⟨10, 20, GDT_Byte, 7, inertRead⟩

/-- Second band of the two-band metadata samples: 30x40, Float64,
no-data 5. -/
def sampleCoreB : BandCore := ⟨30, 40, GDT_Float64, 5, inertRead⟩

/-- An overview of 5x6 samples. -/
def sampleOvCore : BandCore := ⟨5, 6, GDT_Float64, 0, inertRead⟩

/-- Two-band dataset, neither band carrying overviews. -/
def sampleDS2 : GDALDataset :=
  ⟨30, 40, "", "GTiff", "GeoTIFF driver", [⟨sampleCoreA, []⟩, ⟨sampleCoreB, []⟩]⟩

/-- Two-band dataset where band 1 has zero overviews and band 2 has one
5x6 overview. -/
def sampleDS2Ov : GDALDataset :=
  ⟨30, 40, "", "GTiff", "GeoTIFF driver",
   [⟨sampleCoreA, []⟩, ⟨sampleCoreB, [sampleOvCore]⟩]⟩

/-- Georeference oracle on which every strategy fails. -/
def geoNone : GeoOracle := ⟨none, none, none, none⟩

/-- A sample 6-parameter affine transform. -/
def sampleGT : List Int := [100, 1, 0, 200, 0, -1]

/-- Environment for concrete runs: a single-band byte dataset that opens
successfully. -/
def sampleEnv : MexEnv :=
  ⟨"sample.tif", [], 1210, geoNone,
   some ⟨3, 2, "", "GTiff", "GeoTIFF driver", [⟨byteBand, []⟩]⟩⟩

/-- True exactly when a call step ended in mexErrMsgTxt (a fatal abort). -/
def isFatal {α : Type} (r : Except String α) : Bool :=
  match r with
  | .error _ => true
  | .ok _ => false

/-- The native types the fetch switch accepts (mexgdal.c 386-418). -/
def supportedTypes : List Nat :=
  [GDT_Byte, GDT_UInt16, GDT_Int16, GDT_UInt32, GDT_Int32, GDT_Float32,
   GDT_Float64]

/-
Helper lemmas: folds of indexed writes, and evaluation of
unpack_input_options on option structures built by mkOpts.
-/

theorem getD_set_ne (l : List Int) (i j : Nat) (a : Int) (h : i ≠ j) :
    (l.set i a).getD j 0 = l.getD j 0 := by
  simp [List.getD_eq_getElem?_getD, List.getElem?_set_ne h]

theorem getD_set_self (l : List Int) (i : Nat) (a : Int) (h : i < l.length) :
    (l.set i a).getD i 0 = a := by
  simp [List.getD_eq_getElem?_getD, List.getElem?_set_self, h]

theorem foldl_preserve_getD (F : List Int → Nat → List Int) (l : List Nat)
    (t : Nat) (h : ∀ b i, i ∈ l → (F b i).getD t 0 = b.getD t 0) :
    ∀ tb : List Int, (l.foldl F tb).getD t 0 = tb.getD t 0 := by
  induction l with
  | nil => intro tb; rfl
  | cons a tl ih =>
    intro tb
    rw [List.foldl_cons,
      ih (fun b i hi => h b i (List.mem_cons_of_mem a hi)) (F tb a),
      h tb a (List.mem_cons_self a tl)]

theorem foldl_preserve_length (F : List Int → Nat → List Int)
    (l : List Nat) (hlen : ∀ b i, (F b i).length = b.length) :
    ∀ tb : List Int, (l.foldl F tb).length = tb.length := by
  induction l with
  | nil => intro tb; rfl
  | cons a tl ih =>
    intro tb
    rw [List.foldl_cons, ih (F tb a), hlen tb a]

theorem foldl_write_once (F : List Int → Nat → List Int) (t i0 : Nat)
    (v : Int) (L : Nat)
    (hlen : ∀ b i, (F b i).length = b.length)
    (hset : ∀ b : List Int, b.length = L → (F b i0).getD t 0 = v) :
    ∀ l : List Nat, l.Nodup → i0 ∈ l →
      (∀ b i, i ∈ l → i ≠ i0 → (F b i).getD t 0 = b.getD t 0) →
      ∀ tb : List Int, tb.length = L → (l.foldl F tb).getD t 0 = v := by
  intro l
  induction l with
  | nil => intro _ hmem; exact absurd hmem (List.not_mem_nil i0)
  | cons a tl ih =>
    intro hnd hmem hpres tb htb
    rw [List.foldl_cons]
    rcases eq_or_ne a i0 with rfl | hne
    · have hnotin : a ∉ tl := (List.nodup_cons.mp hnd).1
      rw [foldl_preserve_getD F tl t ?_ (F tb a)]
      · exact hset tb htb
      · intro b i hi
        exact hpres b i (List.mem_cons_of_mem a hi)
          (fun he => hnotin (he ▸ hi))
    · have hmem' : i0 ∈ tl := by
        rcases List.mem_cons.mp hmem with h | h
        · exact absurd h.symm hne
        · exact h
      exact ih (List.nodup_cons.mp hnd).2 hmem'
        (fun b i hi hni => hpres b i (List.mem_cons_of_mem a hi) hni)
        (F tb a) (by rw [hlen tb a]; exact htb)

theorem transpose_index_lt (xout yout row col : Nat)
    (hr : row < yout) (hc : col < xout) : col * yout + row < xout * yout :=
  calc col * yout + row < col * yout + yout := by omega
    _ = (col + 1) * yout := by ring
    _ ≤ xout * yout := Nat.mul_le_mul_right yout (by omega)

theorem transpose_index_eq (yout row col i j : Nat)
    (hr : row < yout) (hi : i < yout)
    (heq : j * yout + i = col * yout + row) : i = row ∧ j = col := by
  have hy : 0 < yout := lt_of_le_of_lt (Nat.zero_le row) hr
  have hmod : i = row := by
    have h1 : (j * yout + i) % yout = i := by
      rw [Nat.add_comm, Nat.add_mul_mod_self_right]
      exact Nat.mod_eq_of_lt hi
    have h2 : (col * yout + row) % yout = row := by
      rw [Nat.add_comm, Nat.add_mul_mod_self_right]
      exact Nat.mod_eq_of_lt hr
    rw [heq, h2] at h1; omega
  subst hmod
  refine ⟨rfl, ?_⟩
  have : j * yout = col * yout := by omega
  exact Nat.eq_of_mul_eq_mul_right hy this

theorem transpose_pass_getD (xout yout : Nat) (src : List Int)
    (row col : Nat) (hr : row < yout) (hc : col < xout) :
    (transpose_pass xout yout src).getD (col * yout + row) 0 =
      src.getD (row * xout + col) 0 := by
  unfold transpose_pass
  refine foldl_write_once _ (col * yout + row) row
    (src.getD (row * xout + col) 0) (xout * yout) ?_ ?_
    (List.range yout) (List.nodup_range yout)
    (List.mem_range.mpr hr) ?_
    (List.replicate (xout * yout) 0) (List.length_replicate _ _)
  · intro b i
    exact foldl_preserve_length _ (List.range xout)
      (fun b2 j => List.length_set b2 _ _) b
  · intro b hb
    refine foldl_write_once _ (col * yout + row) col
      (src.getD (row * xout + col) 0) (xout * yout) ?_ ?_
      (List.range xout) (List.nodup_range xout)
      (List.mem_range.mpr hc) ?_ b hb
    · intro b2 j; exact List.length_set b2 _ _
    · intro b2 hb2
      exact getD_set_self b2 _ _
        (by rw [hb2]; exact transpose_index_lt xout yout row col hr hc)
    · intro b2 j hj hne
      refine getD_set_ne b2 _ _ _ ?_
      intro heq
      exact hne (transpose_index_eq yout row col row j hr hr heq).2
  · intro b i hi hne
    refine foldl_preserve_getD _ (List.range xout) _ ?_ b
    intro b2 j hj
    refine getD_set_ne b2 _ _ _ ?_
    intro heq
    exact hne (transpose_index_eq yout row col i j hr
      (List.mem_range.mp hi) heq).1

theorem unpack_append (l1 l2 : List (String × MxField)) (st : OptState) :
    unpack_input_options (l1 ++ l2) st =
      match unpack_input_options l1 st with
      | .error e => .error e
      | .ok (w, st') =>
        match unpack_input_options l2 st' with
        | .error e => .error e
        | .ok (w2, st'') => .ok (w ++ w2, st'') := by
  induction l1 generalizing st with
  | nil =>
    simp only [List.nil_append, unpack_input_options]
    cases unpack_input_options l2 st with
    | error e => rfl
    | ok p => rfl
  | cons hd tl ih =>
    obtain ⟨name, f⟩ := hd
    simp only [List.cons_append, unpack_input_options, List.append_eq]
    cases unpack_field name f st with
    | error e => rfl
    | ok p =>
      obtain ⟨w, st'⟩ := p
      dsimp only
      rw [ih st']
      cases unpack_input_options tl st' with
      | error e => rfl
      | ok q =>
        obtain ⟨w2, st''⟩ := q
        dsimp only
        cases unpack_input_options l2 st'' with
        | error e => rfl
        | ok r =>
          obtain ⟨w3, st3⟩ := r
          dsimp only
          rw [List.append_assoc]

theorem unpack_entry_band (b : Option Int) (st : OptState) :
    unpack_input_options (optEntry "band" b) st =
      .ok ([], { st with requested_band := b.getD st.requested_band }) := by
  cases b <;> rfl

theorem unpack_entry_overview (b : Option Int) (st : OptState) :
    unpack_input_options (optEntry "overview" b) st =
      .ok ([], { st with requested_overview := b.getD st.requested_overview }) := by
  cases b <;> rfl

theorem unpack_entry_gdal_dump (b : Option Int) (st : OptState) :
    unpack_input_options (optEntry "gdal_dump" b) st =
      .ok ([], { st with gdal_dump := b.getD st.gdal_dump }) := by
  cases b <;> rfl

theorem unpack_entry_verbose (b : Option Int) (st : OptState) :
    unpack_input_options (optEntry "verbose" b) st =
      .ok ([], { st with verbose := b.getD st.verbose }) := by
  cases b <;> rfl

theorem unpack_entry_xorigin (b : Option Int) (st : OptState) :
    unpack_input_options (optEntry "xorigin" b) st =
      .ok ([], { st with xorigin := b.getD st.xorigin }) := by
  cases b <;> rfl

theorem unpack_entry_yorigin (b : Option Int) (st : OptState) :
    unpack_input_options (optEntry "yorigin" b) st =
      .ok ([], { st with yorigin := b.getD st.yorigin }) := by
  cases b <;> rfl

theorem unpack_entry_xextend (b : Option Int) (st : OptState) :
    unpack_input_options (optEntry "xextend" b) st =
      .ok ([], { st with xextend := b.getD st.xextend }) := by
  cases b <;> rfl

theorem unpack_entry_yextend (b : Option Int) (st : OptState) :
    unpack_input_options (optEntry "yextend" b) st =
      .ok ([], { st with yextend := b.getD st.yextend }) := by
  cases b <;> rfl

theorem unpack_entry_xout (b : Option Int) (st : OptState) :
    unpack_input_options (optEntry "xout" b) st =
      .ok ([], { st with xout := b.getD st.xout }) := by
  cases b <;> rfl

theorem unpack_entry_yout (b : Option Int) (st : OptState) :
    unpack_input_options (optEntry "yout" b) st =
      .ok ([], { st with yout := b.getD st.yout }) := by
  cases b <;> rfl

theorem unpack_mkOpts (b o d v xo yo xe ye xu yu : Option Int) :
    unpack_input_options (mkOpts b o d v xo yo xe ye xu yu) defaultOptState =
      .ok ([], ⟨b.getD 1, o.getD (-1), d.getD 0, v.getD 1, xo.getD 0,
                yo.getD 0, xe.getD (-1), ye.getD (-1), xu.getD (-1),
                yu.getD (-1)⟩) := by
  simp only [mkOpts, unpack_append, unpack_entry_band, unpack_entry_overview,
    unpack_entry_gdal_dump, unpack_entry_verbose, unpack_entry_xorigin,
    unpack_entry_yorigin, unpack_entry_xextend, unpack_entry_yextend,
    unpack_entry_xout, unpack_entry_yout, List.nil_append]
  rfl

/-- C1: for every fetched window, the transpose step maps the row-major
decode buffer into the column-major output buffer by
output[col * yOut + row] = decoded[row * xOut + col] for every
row in [0,yOut) and col in [0,xOut), and the array handed to the caller
reports dimensions (yOut, xOut). -/
theorem claim_C1_transpose (band : BandCore) (xo yo xe ye xout yout : Int)
    (ev : List Event) (out : FetchOut)
    (hok : fetch band xo yo xe ye xout yout = .ok (ev, out))
    (row col : Nat) (hrow : row < yout.toNat) (hcol : col < xout.toNat) :
    out.data.getD (col * yout.toNat + row) 0 =
      (fetchDecoded band xo yo xe ye xout yout).getD
        (row * xout.toNat + col) 0 ∧
    out.dims = (yout, xout) := by
  unfold fetch at hok
  by_cases h1 : band.dtype = GDT_Byte
  · rw [if_pos h1] at hok
    simp only [Except.ok.injEq, Prod.mk.injEq] at hok
    obtain ⟨-, hout⟩ := hok
    subst hout
    unfold fetchDecoded
    rw [if_pos h1]
    exact ⟨transpose_pass_getD xout.toNat yout.toNat _ row col hrow hcol, rfl⟩
  · rw [if_neg h1] at hok
    by_cases h2 : band.dtype = GDT_UInt16 ∨ band.dtype = GDT_Int16 ∨
        band.dtype = GDT_UInt32 ∨ band.dtype = GDT_Int32 ∨
        band.dtype = GDT_Float32 ∨ band.dtype = GDT_Float64
    · rw [if_pos h2] at hok
      simp only [Except.ok.injEq, Prod.mk.injEq] at hok
      obtain ⟨-, hout⟩ := hok
      subst hout
      unfold fetchDecoded
      rw [if_neg h1]
      exact ⟨transpose_pass_getD xout.toNat yout.toNat _ row col hrow hcol,
             rfl⟩
    · rw [if_neg h2] at hok
      exact absurd hok (by simp)

/-- C1 witness: the 3x2 byte band decodes to [10,20,30,40,50,60]; at
row 1, col 2 the transposed output index 2*2+1 = 5 holds the decoded
index 1*3+2 = 5. -/
theorem claim_C1_transpose_instance :
    fetch byteBand 0 0 3 2 3 2 =
      Except.ok ([Event.rasterRead],
        ⟨ElemKind.uint8, ((2 : Int), (3 : Int)),
         [10, 40, 20, 50, 30, 60]⟩) ∧
    ([10, 40, 20, 50, 30, 60] : List Int).getD
        (2 * (2 : Int).toNat + 1) 0 =
      (fetchDecoded byteBand 0 0 3 2 3 2).getD (1 * (3 : Int).toNat + 2) 0 := by
  have hok : fetch byteBand 0 0 3 2 3 2 =
      Except.ok ([Event.rasterRead],
        ⟨ElemKind.uint8, ((2 : Int), (3 : Int)),
         [10, 40, 20, 50, 30, 60]⟩) := by rfl
  exact ⟨hok,
    (claim_C1_transpose byteBand 0 0 3 2 3 2 _ _ hok 1 2 (by decide)
      (by decide)).1⟩

/-- C2: the fetch step selects the 8-bit unsigned output representation
if and only if the native pixel type is exactly GDT_Byte; every other
supported native type yields 64-bit float elements. -/
theorem claim_C2_branch (band : BandCore) (xo yo xe ye xout yout : Int)
    (h : band.dtype ∈ supportedTypes) :
    (fetch band xo yo xe ye xout yout).map (fun p => p.2.kind) =
      .ok (if band.dtype = GDT_Byte then ElemKind.uint8
           else ElemKind.float64) := by
  simp only [supportedTypes, List.mem_cons, List.not_mem_nil, or_false] at h
  by_cases h1 : band.dtype = GDT_Byte
  · rw [fetch, if_pos h1, if_pos h1]
    rfl
  · have h2 : band.dtype = GDT_UInt16 ∨ band.dtype = GDT_Int16 ∨
        band.dtype = GDT_UInt32 ∨ band.dtype = GDT_Int32 ∨
        band.dtype = GDT_Float32 ∨ band.dtype = GDT_Float64 := by
      rcases h with h | h
      · exact absurd h h1
      · exact h
    rw [fetch, if_neg h1, if_pos h2, if_neg h1]
    rfl

/-- C2 witness: the byte-typed sample band fetches as uint8 and the
Int16-typed sample band fetches as float64. -/
theorem claim_C2_branch_instance :
    (fetch byteBand 0 0 3 2 3 2).map (fun p => p.2.kind) =
      .ok ElemKind.uint8 ∧
    (fetch wideBand 0 0 3 2 3 2).map (fun p => p.2.kind) =
      .ok ElemKind.float64 := by
  constructor
  · have h := claim_C2_branch byteBand 0 0 3 2 3 2 (by decide)
    simpa using h
  · have h := claim_C2_branch wideBand 0 0 3 2 3 2 (by decide)
    simpa using h

/-- C3: the window planner resolves xExtent to the supplied value if any,
else the band width (same for yExtent with the height); xOut to the
supplied value if any, else xExtent - xOrigin (same for yOut); origins
pass through with default 0.  Options are routed through
unpack_input_options exactly as mexFunction does; supplied values are
required non-negative (the -1 sentinel is reserved). -/
theorem claim_C3_window (bw bh : Int) (b o d v xo yo xe ye xu yu : Option Int)
    (hxe : ∀ a, xe = some a → 0 ≤ a) (hye : ∀ a, ye = some a → 0 ≤ a)
    (hxu : ∀ a, xu = some a → 0 ≤ a) (hyu : ∀ a, yu = some a → 0 ≤ a) :
    ∀ w st, unpack_input_options (mkOpts b o d v xo yo xe ye xu yu)
        defaultOptState = .ok (w, st) →
      window_plan st.xorigin st.yorigin st.xextend st.yextend st.xout st.yout
          bw bh =
        ⟨xo.getD 0, yo.getD 0, xe.getD bw, ye.getD bh,
         xu.getD (xe.getD bw - xo.getD 0),
         yu.getD (ye.getD bh - yo.getD 0)⟩ := by
  intro w st hok
  rw [unpack_mkOpts] at hok
  simp only [Except.ok.injEq, Prod.mk.injEq] at hok
  obtain ⟨-, hst⟩ := hok
  subst hst
  have hxE : (if xe.getD (-1) = -1 then bw else xe.getD (-1)) = xe.getD bw := by
    cases xe with
    | none => simp
    | some a =>
      have ha := hxe a rfl
      rw [Option.getD_some, Option.getD_some, if_neg (by omega)]
  have hyE : (if ye.getD (-1) = -1 then bh else ye.getD (-1)) = ye.getD bh := by
    cases ye with
    | none => simp
    | some a =>
      have ha := hye a rfl
      rw [Option.getD_some, Option.getD_some, if_neg (by omega)]
  unfold window_plan
  dsimp only
  rw [hxE, hyE]
  simp only [Window.mk.injEq, true_and]
  constructor
  · cases xu with
    | none => simp
    | some a =>
      have ha := hxu a rfl
      rw [Option.getD_some, Option.getD_some, if_neg (by omega)]
  · cases yu with
    | none => simp
    | some a =>
      have ha := hyu a rfl
      rw [Option.getD_some, Option.getD_some, if_neg (by omega)]

/-- C3 witness: a 500x600 source with no extent/out options resolves to
the window {xOrigin 0, yOrigin 0, xExtent 500, yExtent 600, xOut 500,
yOut 600}. -/
theorem claim_C3_window_instance :
    window_plan defaultOptState.xorigin defaultOptState.yorigin
        defaultOptState.xextend defaultOptState.yextend defaultOptState.xout
        defaultOptState.yout 500 600 =
      ⟨0, 0, 500, 600, 500, 600⟩ := by
  have h := claim_C3_window 500 600 none none none none none none none none
    none none (fun a ha => by cases ha) (fun a ha => by cases ha)
    (fun a ha => by cases ha) (fun a ha => by cases ha)
    [] defaultOptState rfl
  simpa using h

/-- C4: the claim states that entry i of the Band metadata holds band i's
own width, height, type name and no-data value.  The code contradicts it
(and its own documentation block at mexgdal.c 740-752): every mxSetField
in the band loop writes struct element 0, so for the two-band sample the
dump leaves element 0 holding band 2's fields (each band overwrites the
previous) and element 1 entirely unset. -/
theorem claim_C4_band_dump :
    populate_metadata_struct "sample.tif" [] 1210 geoNone (some sampleDS2) =
      .ok (["No internal georeferencing exists for sample.tif, and could not find a suitable world file either.\n"],
        ⟨"", none, "GTiff", "GeoTIFF driver", 30, 40, 2, [],
         [⟨some 30, some 40, some "Float64", some 5, none⟩,
          blankBandEntry]⟩) := by
  rfl

/-- C5 counterexample: a 2x1 band field with data [5, 7] is a shape
mismatch on a lenient field; the code emits the diagnostic but then uses
the field's first element (5) instead of keeping the previous default
(1), refuting "the previous default/sentinel value is kept". -/
theorem claim_C5_counterexample :
    unpack_input_options [("band", ⟨2, 1, true, [5, 7]⟩)] defaultOptState =
      .ok (["unpack_band:  band field must be 1x1 rather than 2x1.\n"],
        { defaultOptState with requested_band := 5 }) ∧
    defaultOptState.requested_band = 1 ∧ (5 : Int) ≠ 1 := by
  refine ⟨rfl, rfl, by decide⟩

/-- Definitional reduction of unpack_field at the strict names. -/
theorem unpack_field_strict_def (f : MxField) (st : OptState) :
    unpack_field "xextend" f st =
      (match unpack_xextend f with
       | .error e => .error e
       | .ok v => .ok ([], { st with xextend := v })) ∧
    unpack_field "yextend" f st =
      (match unpack_yextend f with
       | .error e => .error e
       | .ok v => .ok ([], { st with yextend := v })) ∧
    unpack_field "xout" f st =
      (match unpack_xout f with
       | .error e => .error e
       | .ok v => .ok ([], { st with xout := v })) ∧
    unpack_field "yout" f st =
      (match unpack_yout f with
       | .error e => .error e
       | .ok v => .ok ([], { st with yout := v })) :=
  ⟨rfl, rfl, rfl, rfl⟩

/-- A mis-shaped strict field makes unpack_field fatal. -/
theorem unpack_field_strict_err (f : MxField) (st : OptState)
    (h : f.m ≠ 1 ∨ f.n ≠ 1) (name : String)
    (hname : name ∈ (["xextend", "yextend", "xout", "yout"] : List String)) :
    isFatal (unpack_field name f st) = true := by
  have hX : isFatal (unpack_field "xextend" f st) = true := by
    rw [(unpack_field_strict_def f st).1]
    unfold unpack_xextend
    rw [if_pos h]
    rfl
  have hY : isFatal (unpack_field "yextend" f st) = true := by
    rw [(unpack_field_strict_def f st).2.1]
    unfold unpack_yextend
    rw [if_pos h]
    rfl
  have hXO : isFatal (unpack_field "xout" f st) = true := by
    rw [(unpack_field_strict_def f st).2.2.1]
    unfold unpack_xout
    rw [if_pos h]
    rfl
  have hYO : isFatal (unpack_field "yout" f st) = true := by
    rw [(unpack_field_strict_def f st).2.2.2]
    unfold unpack_yout
    rw [if_pos h]
    rfl
  simp only [List.mem_cons, List.not_mem_nil, or_false] at hname
  rcases hname with rfl | rfl | rfl | rfl
  · exact hX
  · exact hY
  · exact hXO
  · exact hYO

/-- C5 (amended): a non-1x1 xextend/yextend/xout/yout field aborts the
whole call fatally wherever it sits in the option structure; for the
other recognized scalar fields (band, overview, gdal_dump, verbose,
xorigin, yorigin) a shape mismatch never aborts the call — it is at most
a non-fatal diagnostic — and the field's FIRST ELEMENT is used as the
value: the previous default/sentinel is not kept. -/
theorem claim_C5_amended (f : MxField) (st : OptState) :
    ((f.m ≠ 1 ∨ f.n ≠ 1) →
      ∀ name, name ∈ (["xextend", "yextend", "xout", "yout"] : List String) →
        isFatal (unpack_field name f st) = true ∧
        ∀ pre post st2,
          isFatal (unpack_input_options (pre ++ (name, f) :: post) st2) =
            true) ∧
    (unpack_field "band" f st).map (fun p => p.2) =
      .ok { st with requested_band := f.data.headD 0 } ∧
    (unpack_field "overview" f st).map (fun p => p.2) =
      .ok { st with requested_overview := f.data.headD 0 } ∧
    (unpack_field "gdal_dump" f st).map (fun p => p.2) =
      .ok { st with gdal_dump := f.data.headD 0 } ∧
    (unpack_field "verbose" f st).map (fun p => p.2) =
      .ok { st with verbose := f.data.headD 0 } ∧
    (unpack_field "xorigin" f st).map (fun p => p.2) =
      .ok { st with xorigin := f.data.headD 0 } ∧
    (unpack_field "yorigin" f st).map (fun p => p.2) =
      .ok { st with yorigin := f.data.headD 0 } := by
  refine ⟨?_, rfl, rfl, rfl, rfl, rfl, rfl⟩
  intro h name hname
  refine ⟨unpack_field_strict_err f st h name hname, ?_⟩
  intro pre post st2
  rw [unpack_append]
  cases hpre : unpack_input_options pre st2 with
  | error e => rfl
  | ok p =>
    obtain ⟨w, st'⟩ := p
    dsimp only
    have herr : isFatal (unpack_field name f st') = true :=
      unpack_field_strict_err f st' h name hname
    rw [unpack_input_options]
    cases hf : unpack_field name f st' with
    | error e => rfl
    | ok q => rw [hf] at herr; exact absurd herr (by simp [isFatal])

/-- C5 witness: with the concrete 2x1 field [5, 7], the xextend route is
fatal (also embedded mid-structure) while the band route stays non-fatal
and takes the first element 5. -/
theorem claim_C5_amended_instance :
    isFatal (unpack_field "xextend" ⟨2, 1, true, [5, 7]⟩ defaultOptState) =
      true ∧
    isFatal (unpack_input_options
      [("band", ⟨1, 1, true, [3]⟩), ("xextend", ⟨2, 1, true, [5, 7]⟩)]
      defaultOptState) = true ∧
    (unpack_field "band" ⟨2, 1, true, [5, 7]⟩ defaultOptState).map
        (fun p => p.2) =
      .ok { defaultOptState with requested_band := 5 } := by
  have h := claim_C5_amended ⟨2, 1, true, [5, 7]⟩ defaultOptState
  have hstrict := h.1 (by decide) "xextend" (by decide)
  exact ⟨hstrict.1,
    hstrict.2 [("band", ⟨1, 1, true, [3]⟩)] [] defaultOptState,
    h.2.1⟩

/-- C6: record_geotransform consults its strategies in the fixed order
internal transform, generic .wld, appended-extension .wld,
version-gated guessing; the first success is returned and later
strategies are not consulted (the trace lists exactly the consulted
prefix); when every strategy fails it reports -1 / no transform, and
populate_metadata_struct treats that as a warning, not an error. -/
theorem claim_C6_geotransform (version : Nat) (o : GeoOracle) :
    (∀ g, o.internal = some g →
      record_geotransform version o = (0, some g, geoStrategyNames.take 1)) ∧
    (∀ g, o.internal = none → o.wldGeneric = some g →
      record_geotransform version o = (0, some g, geoStrategyNames.take 2)) ∧
    (∀ g, o.internal = none → o.wldGeneric = none → o.wldAppended = some g →
      record_geotransform version o = (0, some g, geoStrategyNames.take 3)) ∧
    (∀ g, o.internal = none → o.wldGeneric = none → o.wldAppended = none →
      version ≥ 1210 → o.wldGuess = some g →
      record_geotransform version o = (0, some g, geoStrategyNames.take 4)) ∧
    (o.internal = none → o.wldGeneric = none → o.wldAppended = none →
      (version ≥ 1210 → o.wldGuess = none) →
      (record_geotransform version o).1 = -1 ∧
      (record_geotransform version o).2.1 = none ∧
      ∀ fn drv ds, ∃ w m,
        populate_metadata_struct fn drv version o (some ds) = .ok (w, m) ∧
        m.geoTransform = none) := by
  refine ⟨?_, ?_, ?_, ?_, ?_⟩
  · intro g h1
    rw [record_geotransform, h1]
  · intro g h1 h2
    rw [record_geotransform, h1, h2]
  · intro g h1 h2 h3
    rw [record_geotransform, h1, h2, h3]
  · intro g h1 h2 h3 hv h4
    rw [record_geotransform, h1, h2, h3, h4]
    simp [hv]
  · intro h1 h2 h3 h4
    have hrec : (record_geotransform version o).1 = -1 ∧
        (record_geotransform version o).2.1 = none := by
      rw [record_geotransform, h1, h2, h3]
      by_cases hv : version ≥ 1210
      · rw [h4 hv]; simp [hv]
      · simp [hv]
    refine ⟨hrec.1, hrec.2, ?_⟩
    intro fn drv ds
    have hne : ¬ (record_geotransform version o).1 = 0 := by
      rw [hrec.1]; decide
    refine ⟨["No internal georeferencing exists for " ++ fn ++
        ", and could not find a suitable world file either.\n"],
      ⟨ds.projectionRef, none, ds.driverShortName, ds.driverLongName,
       ds.xsize, ds.ysize, (ds.bands.length : Int), drv,
       band_loop ds.bands (List.replicate ds.bands.length blankBandEntry)⟩,
      ?_, rfl⟩
    rw [populate_metadata_struct]
    simp only [if_neg hne]

/-- C6 witness: with no internal transform and a generic .wld hit, the
result is the generic transform and only the first two strategies are
consulted, even though the later strategies would also succeed. -/
theorem claim_C6_geotransform_instance :
    record_geotransform 1210
        ⟨none, some sampleGT, some sampleGT, some sampleGT⟩ =
      (0, some sampleGT,
       ["GDALGetGeoTransform", "GDALReadWorldFile wld"]) := by
  have h := (claim_C6_geotransform 1210
    ⟨none, some sampleGT, some sampleGT, some sampleGT⟩).2.1 sampleGT rfl rfl
  simpa [geoStrategyNames] using h

/-- C7: a native pixel type outside the supported set makes the fetch
call fail fatally, producing no array, with the offending type value in
the message. -/
theorem claim_C7_unsupported (band : BandCore) (xo yo xe ye xout yout : Int)
    (h : band.dtype ∉ supportedTypes) :
    fetch band xo yo xe ye xout yout =
      .error ("Unhandled GDALDataType " ++ toString band.dtype ++ ".\n") := by
  simp only [supportedTypes, List.mem_cons, List.not_mem_nil, or_false,
    not_or] at h
  obtain ⟨h1, h2, h3, h4, h5, h6, h7⟩ := h
  rw [fetch, if_neg h1, if_neg (by tauto)]

/-- C7 witness: the sample band with type code 42 fails fatally and the
message names 42. -/
theorem claim_C7_unsupported_instance :
    fetch badBand 0 0 3 2 3 2 = .error "Unhandled GDALDataType 42.\n" := by
  have h := claim_C7_unsupported badBand 0 0 3 2 3 2 (by decide)
  simpa using h

/-- C8: the claim states that a band with zero overviews gets an empty
Overview sequence of its own.  handle_overviews with zero overviews is
indeed a silent no-op (not an error), but because it writes element 0 for
every band, in the two-band sample where band 1 has zero overviews and
band 2 has one, band 1's entry (element 0) ends up carrying band 2's
overview list — not the empty sequence the claim requires. -/
theorem claim_C8_overview_dump :
    band_loop sampleDS2Ov.bands (List.replicate 2 blankBandEntry) =
      [⟨some 30, some 40, some "Float64", some 5, some [⟨5, 6⟩]⟩,
       blankBandEntry] ∧
    overviewField
        ⟨some 30, some 40, some "Float64", some 5, some [⟨5, 6⟩]⟩ =
      [⟨5, 6⟩] ∧
    sampleDS2Ov.bands.map (fun b => b.overviews.length) = [0, 1] := by
  exact ⟨rfl, rfl, rfl⟩

theorem fetch_events (band : BandCore) (xo yo xe ye xout yout : Int)
    (ev : List Event) (out : FetchOut)
    (hok : fetch band xo yo xe ye xout yout = .ok (ev, out)) :
    ev = [Event.rasterRead] := by
  unfold fetch at hok
  by_cases h1 : band.dtype = GDT_Byte
  · rw [if_pos h1] at hok
    simp only [Except.ok.injEq, Prod.mk.injEq] at hok
    exact hok.1.symm
  · rw [if_neg h1] at hok
    by_cases h2 : band.dtype = GDT_UInt16 ∨ band.dtype = GDT_Int16 ∨
        band.dtype = GDT_UInt32 ∨ band.dtype = GDT_Int32 ∨
        band.dtype = GDT_Float32 ∨ band.dtype = GDT_Float64
    · rw [if_pos h2] at hok
      simp only [Except.ok.injEq, Prod.mk.injEq] at hok
      exact hok.1.symm
    · rw [if_neg h2] at hok
      exact absurd hok (by simp)

theorem run_with_options_events (env : MexEnv) (warns : List String)
    (st : OptState) :
    (run_with_options env warns st).events = [] ∨
    (run_with_options env warns st).events = [Event.metadataDump] ∨
    (run_with_options env warns st).events = [Event.rasterRead] := by
  rw [run_with_options]
  by_cases hd : st.gdal_dump ≠ 0
  · rw [if_pos hd]
    cases populate_metadata_struct env.filename env.drivers env.version
        env.geo env.openResult with
    | error e => exact Or.inl rfl
    | ok p =>
      obtain ⟨w2, m⟩ := p
      exact Or.inr (Or.inl rfl)
  · rw [if_neg hd]
    cases env.openResult with
    | none => exact Or.inl rfl
    | some ds =>
      dsimp only
      split
      · exact Or.inl rfl
      · next ev out heq =>
        rw [fetch_events _ _ _ _ _ _ _ _ _ heq]
        exact Or.inr (Or.inr rfl)

/-- C9: dump mode and pixel-fetch mode are mutually exclusive: no run
ever performs both a windowed raster read and a metadata dump, and a call
whose gdal_dump option resolves to a nonzero value performs no raster
read and can only return the metadata record. -/
theorem claim_C9_dispatch (env : MexEnv) :
    (∀ opts, ¬(Event.rasterRead ∈ (mexgdal_run env opts).events ∧
               Event.metadataDump ∈ (mexgdal_run env opts).events)) ∧
    (∀ b o v xo yo xe ye xu yu : Option Int, ∀ d : Int, d ≠ 0 →
      Event.rasterRead ∉
        (mexgdal_run env (some (mkOpts b o (some d) v xo yo xe ye xu yu))).events ∧
      ∀ out, (mexgdal_run env
            (some (mkOpts b o (some d) v xo yo xe ye xu yu))).outcome =
          .ok out → ∃ m, out = MexOut.meta m) := by
  constructor
  · intro opts h
    obtain ⟨hr, hm⟩ := h
    rw [mexgdal_run.eq_def] at hr hm
    rcases hu : (match opts with
                 | none => Except.ok ([], defaultOptState)
                 | some s => unpack_input_options s defaultOptState) with
      e | p
    · rw [hu] at hr
      simp at hr
    · obtain ⟨w, st⟩ := p
      rw [hu] at hr hm
      dsimp only at hr hm
      rcases run_with_options_events env w st with he | he | he <;>
        rw [he] at hr hm <;> simp at hr hm
  · intro b o v xo yo xe ye xu yu d hd
    rw [mexgdal_run.eq_def]
    dsimp only
    rw [unpack_mkOpts]
    dsimp only
    rw [run_with_options, if_pos (show (Option.some d).getD 0 ≠ 0 from hd)]
    cases populate_metadata_struct env.filename env.drivers env.version
        env.geo env.openResult with
    | error e =>
      refine ⟨by simp, ?_⟩
      intro out hout
      simp at hout
    | ok p =>
      obtain ⟨w2, m⟩ := p
      refine ⟨by simp, ?_⟩
      intro out hout
      simp only [Except.ok.injEq] at hout
      exact ⟨m, hout.symm⟩

/-- C9 witness: on the concrete single-band environment, requesting
gdal_dump = 1 performs no raster read. -/
theorem claim_C9_dispatch_instance :
    Event.rasterRead ∉
      (mexgdal_run sampleEnv
        (some (mkOpts none none (some 1) none none none none none none
          none))).events :=
  ((claim_C9_dispatch sampleEnv).2 none none none none none none none none
    none 1 (by decide)).1

theorem run_with_options_outcome_verbose (env : MexEnv)
    (w1 w2 : List String) (st : OptState) (v : Int) :
    (run_with_options env w1 { st with verbose := v }).outcome =
    (run_with_options env w2 st).outcome := by
  rw [run_with_options, run_with_options]
  by_cases hd : st.gdal_dump ≠ 0
  · rw [if_pos hd, if_pos hd]
    cases populate_metadata_struct env.filename env.drivers env.version
        env.geo env.openResult with
    | error e => rfl
    | ok p => obtain ⟨w3, m⟩ := p; rfl
  · rw [if_neg hd, if_neg hd]
    cases env.openResult with
    | none => rfl
    | some ds =>
      dsimp only
      split <;> rfl

/-- C10: the returned value of a run — element type, dimensions and every
element of the pixel array, or the metadata record — is identical whether
the verbose option is any one value or any other; verbosity only gates
diagnostic printing. -/
theorem claim_C10_verbose (env : MexEnv)
    (b o d xo yo xe ye xu yu : Option Int) (v1 v2 : Int) :
    (mexgdal_run env
      (some (mkOpts b o d (some v1) xo yo xe ye xu yu))).outcome =
    (mexgdal_run env
      (some (mkOpts b o d (some v2) xo yo xe ye xu yu))).outcome := by
  rw [mexgdal_run.eq_def, mexgdal_run.eq_def]
  dsimp only
  rw [unpack_mkOpts, unpack_mkOpts]
  dsimp only
  exact run_with_options_outcome_verbose env [] []
    ⟨b.getD 1, o.getD (-1), d.getD 0, v2, xo.getD 0, yo.getD 0,
     xe.getD (-1), ye.getD (-1), xu.getD (-1), yu.getD (-1)⟩ v1

end Mexgdal
